import Mathlib

/-!
Verification of the edmcp bubble-sheet core (grader, scanner decoding,
alignment estimator, job orchestrator) against its specification.

Python floats are modelled as exact rationals (`ℚ`); Python's `round(x, 2)`
(round half to even at two decimals) is modelled by `pyRound2`; code that can
raise is modelled with `Option`/`Except`.  Computer-vision primitives
(contour detection, perspective solving) operate on raster images and are
modelled as oracle parameters; everything downstream of them is embedded
directly from the source.
-/

namespace Edmcp

/-! ### String primitives

Python string operations are embedded as structurally recursive functions
over the character list of a `String`, mirroring `str.strip`, `str.split`,
`str.lower`, `str.upper`, `str.lstrip`, `in` and `",".join` (ASCII case
mapping; the ASCII whitespace set of `str.strip`). -/

/-- A Python whitespace character (for `str.strip`). -/
def pySpace (c : Char) : Bool :=
  c.isWhitespace || c == '\x0b' || c == '\x0c'

/-- Python `str.strip()`. -/
def pyStrip (s : String) : String :=
  ⟨((s.data.dropWhile pySpace).reverse.dropWhile pySpace).reverse⟩

/-- Python `str.split(",")` on a character list. -/
def splitCommaL : List Char → List (List Char)
  | [] => [[]]
  | c :: rest =>
    let r := splitCommaL rest
    if c = ',' then [] :: r
    else
      match r with
      | [] => [[c]]
      | g :: gs => (c :: g) :: gs

/-- Python `str.split(",")`. -/
def splitComma (s : String) : List String := (splitCommaL s.data).map String.mk

/-- Python `str.lower()` (ASCII). -/
def lowerStr (s : String) : String := ⟨s.data.map Char.toLower⟩

/-- Python `str.upper()` (ASCII). -/
def upperStr (s : String) : String := ⟨s.data.map Char.toUpper⟩

/-- Python `str.startswith(single character)`. -/
def headIs (c : Char) (s : String) : Bool :=
  match s.data with
  | [] => false
  | d :: _ => d == c

/-- Python `c in str` for a single character. -/
def containsChar (s : String) (c : Char) : Bool := s.data.any (· == c)

/-- Lexicographic comparison of character lists (Python `<` on `str`). -/
def ltChars : List Char → List Char → Bool
  | [], [] => false
  | [], _ :: _ => true
  | _ :: _, [] => false
  | a :: as, b :: bs => if a < b then true else if b < a then false else ltChars as bs

/-- Python `<` on strings. -/
def strLt (s t : String) : Bool := ltChars s.data t.data

/-- Python `",".join(parts)`. -/
def joinComma : List String → String
  | [] => ""
  | [x] => x
  | x :: y :: ys => x ++ "," ++ joinComma (y :: ys)

/-- Python `round(x, 2)`: round `x` to two decimal places, ties to even. -/
def pyRound2 (x : ℚ) : ℚ :=
  if x * 100 - ⌊x * 100⌋ < 1/2 then ((⌊x * 100⌋ : ℤ) : ℚ) / 100
  else if 1/2 < x * 100 - ⌊x * 100⌋ then ((⌊x * 100⌋ + 1 : ℤ) : ℚ) / 100
  else if ⌊x * 100⌋ % 2 = 0 then ((⌊x * 100⌋ : ℤ) : ℚ) / 100
  else ((⌊x * 100⌋ + 1 : ℤ) : ℚ) / 100

/-- The `1e-12` guard the grader adds before rounding a score
(`round(score + 1e-12, 2)` in `_score_multiple_select`). -/
def scoreEps : ℚ := 1 / 10 ^ 12

/-! ## Grading engine (`edmcp_bubble/core/grader.py`) -/

/-- `QuestionSpec` from `grader.py`: specification for one question. -/
structure QuestionSpec where
  question_id : String
  correct_options : Finset String
  points : ℚ
deriving DecidableEq

/-- `QuestionSpec.is_multiple`: whether this is a multiple-select question. -/
def QuestionSpec.is_multiple (s : QuestionSpec) : Bool :=
  1 < s.correct_options.card

/-- `QuestionSpec.num_correct`: number of correct options. -/
def QuestionSpec.num_correct (s : QuestionSpec) : ℕ :=
  s.correct_options.card

/-- `_tokenize_answers`: split on commas, strip whitespace, lowercase,
drop empty parts. -/
def tokenize_answers (value : String) : List String :=
  let text := pyStrip value
  if text = "" then []
  else ((splitComma text).filter (fun part => pyStrip part ≠ "")).map
    (fun part => lowerStr (pyStrip part))

/-- `_score_multiple_select`: Canvas-style partial credit.  Counts are `ℤ`
as in the source (which guards against negatives); errors model the raised
`ValueError`s. -/
def score_multiple_select (total_points : ℚ)
    (correct_options selected_correct selected_incorrect : ℤ) :
    Except String ℚ :=
  if total_points < 0 then
    .error "total_points cannot be negative."
  else if correct_options ≤ 0 then
    .ok 0
  else if selected_correct < 0 ∨ selected_incorrect < 0 then
    .error "Selection counts cannot be negative."
  else if correct_options < selected_correct then
    .error "selected_correct cannot exceed number of correct options."
  else
    let point_per_option := total_points / (correct_options : ℚ)
    let raw_score := ((selected_correct - selected_incorrect : ℤ) : ℚ) * point_per_option
    let score := max 0 raw_score
    .ok (pyRound2 (score + scoreEps))

/-- The per-question branch of `BubbleSheetGrader.grade_response`
(lines 149–158): tokenize the student answer, then single-select exact
match or multiple-select partial credit. -/
def gradeQuestion (spec : QuestionSpec) (student_answer : String) :
    Except String ℚ :=
  let selected_tokens := (tokenize_answers student_answer).toFinset
  if ¬ spec.is_multiple then
    .ok (if selected_tokens = spec.correct_options then spec.points else 0)
  else
    let hits := (selected_tokens ∩ spec.correct_options).card
    let extras := (selected_tokens \ spec.correct_options).card
    score_multiple_select spec.points (spec.num_correct : ℤ) (hits : ℤ) (extras : ℤ)

/-- The multiple-select branch applied directly to a set of selected tokens
(the composition of lines 156–158 of `grade_response` with
`_score_multiple_select`). -/
def multiSelectScore (spec : QuestionSpec) (selected : Finset String) :
    Except String ℚ :=
  score_multiple_select spec.points (spec.num_correct : ℤ)
    ((selected ∩ spec.correct_options).card : ℤ)
    ((selected \ spec.correct_options).card : ℤ)

/-- The value carried by a non-raising computation (`0` for an error);
used only to state properties of computations proved non-raising. -/
def okValue (e : Except String ℚ) : ℚ :=
  match e with
  | .ok v => v
  | .error _ => 0

/-- Python `int(str)` on a possibly signed decimal string; `none` models the
raised `ValueError`. -/
def pyInt? (s : String) : Option ℤ :=
  let t := (pyStrip s).data
  let core := if headIs '-' ⟨t⟩ ∨ headIs '+' ⟨t⟩ then t.tail else t
  if core ≠ [] ∧ core.all Char.isDigit then
    let n : ℕ := core.foldl (fun acc c => acc * 10 + (c.toNat - 48)) 0
    some (if headIs '-' ⟨t⟩ then -(n : ℤ) else (n : ℤ))
  else none

/-- Python `str.lstrip("Qq")`: drop leading `Q`/`q` characters. -/
def lstripQq (s : String) : String :=
  ⟨s.data.dropWhile (fun c => c == 'Q' || c == 'q')⟩

/-- The answer-lookup loop of `grade_response` (lines 126–144): match by
normalized key (upper-cased, `Q`-prefixed) or by numeric suffix. -/
def findStudentAnswer (question_id : String) :
    List (String × String) → Option String
  | [] => none
  | (key, value) :: rest =>
    let upper := upperStr key
    let normalized_key := if headIs 'Q' upper then upper else "Q" ++ upper
    if normalized_key = question_id then some value
    else
      match pyInt? (lstripQq key), pyInt? (lstripQq question_id) with
      | some key_num, some qid_num =>
        if key_num = qid_num then some value
        else findStudentAnswer question_id rest
      | _, _ => findStudentAnswer question_id rest

/-- `BubbleSheetGrader`: the state built by `__init__`. -/
structure Grader where
  question_specs : List QuestionSpec
  question_order : List String
  total_points : ℚ

/-- Insertion into the `question_specs` dict with Python dict semantics
(update in place on an existing key, append otherwise). -/
def insertSpec (specs : List QuestionSpec) (s : QuestionSpec) :
    List QuestionSpec :=
  if specs.any (fun t => t.question_id == s.question_id) then
    specs.map (fun t => if t.question_id == s.question_id then s else t)
  else specs ++ [s]

/-- `BubbleSheetGrader.__init__`: build the specs from an answer key of
`(question, answer, points)` items. -/
def buildGrader (answer_key : List (String × String × ℚ)) :
    Except String Grader :=
  answer_key.foldl
    (fun acc item =>
      match acc with
      | .error e => .error e
      | .ok g =>
        let question_id := upperStr item.1
        let tokens := tokenize_answers item.2.1
        if tokens = [] then
          .error ("Question " ++ question_id ++ " has no valid correct answers.")
        else
          .ok { question_specs :=
                  insertSpec g.question_specs
                    ⟨question_id, tokens.toFinset, item.2.2⟩,
                question_order := g.question_order ++ [question_id],
                total_points := g.total_points + item.2.2 })
    (.ok ⟨[], [], 0⟩)

/-- The per-question loop of `grade_response` (lines 124–161), with the
running total and the `per_question` map as accumulators. -/
def gradeLoop (answers : List (String × String)) :
    List QuestionSpec → ℚ → List (String × ℚ) →
    Except String (ℚ × List (String × ℚ))
  | [], total, perQ => .ok (total, perQ)
  | spec :: rest, total, perQ =>
    match gradeQuestion spec
        ((findStudentAnswer spec.question_id answers).getD "") with
    | .error e => .error e
    | .ok score =>
      gradeLoop answers rest (total + score)
        (perQ ++ [(spec.question_id, pyRound2 score)])

/-- `BubbleSheetGrader.grade_response`: returns
`(total_score, percent_grade, per_question)`. -/
def gradeResponse (g : Grader) (answers : List (String × String)) :
    Except String (ℚ × ℚ × List (String × ℚ)) :=
  match gradeLoop answers g.question_specs 0 [] with
  | .error e => .error e
  | .ok (total, perQ) =>
    let total_score := pyRound2 total
    let percent_grade :=
      if 0 < g.total_points then pyRound2 (total_score / g.total_points * 100)
      else 0
    .ok (total_score, percent_grade, perQ)

/-! ## Scanner decoding (`edmcp_bubble/core/scanner.py`)

`_scan_student_id` and `_scan_answers` first compute, per bubble, a fill
score via the geometric transform and `_measure_bubble_fill`; that
image-dependent measurement is abstracted as a `fill : BubbleDef → ℚ`
oracle, and the decision policies downstream of it are embedded directly. -/

/-- `BubbleDef` from `scanner.py`. -/
structure BubbleDef where
  label : String
  x : ℚ
  y : ℚ
  radius : ℚ
deriving DecidableEq

/-- `QuestionDef` from `scanner.py`. -/
structure QuestionDef where
  number : ℤ
  bubbles : List BubbleDef
deriving DecidableEq

/-- `StudentIDColumn` from `scanner.py`. -/
structure StudentIDColumn where
  digit_index : ℤ
  bubbles : List BubbleDef
deriving DecidableEq

/-- Python `max(scores, key=score)`: first pair with maximal score;
`none` models the `ValueError` raised on an empty list. -/
def pyMax (scores : List (String × ℚ)) : Option (String × ℚ) :=
  scores.foldl
    (fun best item =>
      match best with
      | none => some item
      | some b => if b.2 < item.2 then some item else some b)
    none

/-- Insert into a descending-sorted list of scores. -/
def insertDesc (x : ℚ) : List ℚ → List ℚ
  | [] => [x]
  | y :: ys => if y < x then x :: y :: ys else y :: insertDesc x ys

/-- Python `sorted(values, reverse=True)`. -/
def sortDesc (l : List ℚ) : List ℚ := l.foldr insertDesc []

/-- Insert into an ascending-sorted list of strings. -/
def insertAsc (x : String) : List String → List String
  | [] => [x]
  | y :: ys => if strLt y x then y :: insertAsc x ys else x :: y :: ys

/-- Python `sorted(labels)` (lexicographic). -/
def sortAsc : List String → List String
  | [] => []
  | x :: xs => insertAsc x (sortAsc xs)

/-- Stable insertion by ascending `digit_index`. -/
def insertCol (c : StudentIDColumn) :
    List StudentIDColumn → List StudentIDColumn
  | [] => [c]
  | d :: ds =>
    if c.digit_index ≤ d.digit_index then c :: d :: ds else d :: insertCol c ds

/-- Python `sorted(columns, key=lambda c: c.digit_index)` (stable). -/
def sortCols : List StudentIDColumn → List StudentIDColumn
  | [] => []
  | c :: cs => insertCol c (sortCols cs)

/-- The runner-up score of a column or question:
`sorted(scores, reverse=True)[1] if len(scores) > 1 else 0.0`. -/
def rivalScore (column_scores : List (String × ℚ)) : ℚ :=
  if 1 < column_scores.length then
    (sortDesc (column_scores.map Prod.snd)).getD 1 0
  else 0

/-- The per-column body of `_scan_student_id` (lines 465–500), given the
computed `(label, score)` pairs.  Returns the digit and the warnings
emitted for this column; `none` models the `ValueError` that
`max(column_scores, ...)` raises when the column has no bubbles.
(The numeric interpolations of the Python f-string warnings are omitted.) -/
def decodeIdColumn (digit_index : ℤ) (column_scores : List (String × ℚ))
    (threshold relative_threshold min_darkness : ℚ) :
    Option (String × List String) :=
  if ((column_scores.filter (fun p => threshold ≤ p.2)).map Prod.fst).length = 1 then
    some (((column_scores.filter (fun p => threshold ≤ p.2)).map Prod.fst).headD "?", [])
  else
    match pyMax column_scores with
    | none => none
    | some (best_label, best_score) =>
      if best_score < min_darkness then
        some ("?",
          ["Digit " ++ toString digit_index ++
            ": no bubble above threshold and best mark too light."])
      else if best_score * relative_threshold ≤ rivalScore column_scores then
        some ("?", ["Digit " ++ toString digit_index ++ ": ambiguous fill."])
      else some (best_label, [])

/-- The column loop of `_scan_student_id`, accumulating digits and
warnings over the sorted columns. -/
def scanIdLoop (fill : BubbleDef → ℚ)
    (threshold relative_threshold min_darkness : ℚ) :
    List StudentIDColumn → Option (List String × List String)
  | [] => some ([], [])
  | c :: cs =>
    match decodeIdColumn c.digit_index
        (c.bubbles.map (fun b => (b.label, fill b)))
        threshold relative_threshold min_darkness with
    | none => none
    | some (d, w) =>
      match scanIdLoop fill threshold relative_threshold min_darkness cs with
      | none => none
      | some (ds, ws) => some (d :: ds, w ++ ws)

/-- `_scan_student_id`: decode the student ID; `none` models a raised
exception (a column with no bubbles). -/
def scan_student_id (fill : BubbleDef → ℚ) (columns : List StudentIDColumn)
    (threshold relative_threshold min_darkness : ℚ) :
    Option (String × List String) :=
  match scanIdLoop fill threshold relative_threshold min_darkness
      (sortCols columns) with
  | none => none
  | some (digits, warnings) =>
    if containsChar (String.join digits) '?' ∨ String.join digits = "" then
      some ("ERROR", warnings ++ ["Student ID unresolved."])
    else some (String.join digits, warnings)

/-- The per-question body of `_scan_answers` (lines 523–553), given the
computed `(label, score)` pairs.  Returns the answer string and the
warnings for this question; `none` models the `ValueError` raised by
`max(option_scores, ...)` on a question with no bubbles. -/
def decodeQuestion (number : ℤ) (option_scores : List (String × ℚ))
    (threshold relative_threshold min_darkness : ℚ) :
    Option (String × List String) :=
  if (option_scores.filter (fun p => threshold ≤ p.2)).map Prod.fst ≠ [] then
    some (joinComma (sortAsc
      ((option_scores.filter (fun p => threshold ≤ p.2)).map Prod.fst)), [])
  else
    match pyMax option_scores with
    | none => none
    | some (best_label, best_score) =>
      if best_score < min_darkness then
        some ("",
          ["Question " ++ toString number ++
            ": no selection above threshold and best mark too light."])
      else
        some (joinComma (sortAsc
          (if (option_scores.filter (fun p =>
                max (threshold * (1/2)) (best_score * relative_threshold) ≤ p.2)).map
              Prod.fst = [] then
            [best_label]
          else
            (option_scores.filter (fun p =>
              max (threshold * (1/2)) (best_score * relative_threshold) ≤ p.2)).map
              Prod.fst)),
          ["Question " ++ toString number ++
            ": using relative threshold fallback."])

/-- Python dict assignment `answers[k] = v` on an insertion-ordered map. -/
def dictInsert (d : List (ℤ × String)) (k : ℤ) (v : String) :
    List (ℤ × String) :=
  if d.any (fun p => p.1 == k) then
    d.map (fun p => if p.1 == k then (k, v) else p)
  else d ++ [(k, v)]

/-- The question loop of `_scan_answers`, accumulating the answers dict
and the warnings. -/
def scanAnswersLoop (fill : BubbleDef → ℚ)
    (threshold relative_threshold min_darkness : ℚ) :
    List QuestionDef → List (ℤ × String) → List String →
    Option (List (ℤ × String) × List String)
  | [], answers, warnings => some (answers, warnings)
  | q :: qs, answers, warnings =>
    match decodeQuestion q.number (q.bubbles.map (fun b => (b.label, fill b)))
        threshold relative_threshold min_darkness with
    | none => none
    | some (a, w) =>
      scanAnswersLoop fill threshold relative_threshold min_darkness qs
        (dictInsert answers q.number a) (warnings ++ w)

/-- `_scan_answers`: decode all answers; `none` models a raised exception
(a question with no bubbles). -/
def scan_answers (fill : BubbleDef → ℚ) (questions : List QuestionDef)
    (threshold relative_threshold min_darkness : ℚ) :
    Option (List (ℤ × String) × List String) :=
  scanAnswersLoop fill threshold relative_threshold min_darkness questions [] []

/-! ### Decoder policies as described by the specification

These definitions follow the wording of §4.4 of the specification and of
the claims; they are compared with the embeddings above. -/

/-- Spec §4.4, student-ID policy for one column: if exactly one bubble
scores at or above the absolute threshold its label is the digit;
otherwise the best-scoring bubble is taken, giving `"?"` when it is
lighter than `minDarkness` or when the runner-up reaches
`best × relativeThreshold`, and its label otherwise. -/
def specIdDigit (scores : List (String × ℚ))
    (absoluteThreshold relativeThreshold minDarkness : ℚ) : String :=
  if (scores.filter (fun p => absoluteThreshold ≤ p.2)).length = 1 then
    (((scores.filter (fun p => absoluteThreshold ≤ p.2)).map Prod.fst).headD "?")
  else
    match pyMax scores with
    | none => "?"
    | some (bestLabel, best) =>
      if best < minDarkness then "?"
      else if best * relativeThreshold ≤ rivalScore scores then "?"
      else bestLabel

/-- Spec §4.4: the decoded digits, in increasing `digit_index` order. -/
def specIdDigits (fill : BubbleDef → ℚ) (columns : List StudentIDColumn)
    (absoluteThreshold relativeThreshold minDarkness : ℚ) : List String :=
  (sortCols columns).map
    (fun c => specIdDigit (c.bubbles.map (fun b => (b.label, fill b)))
      absoluteThreshold relativeThreshold minDarkness)

/-- Spec §4.4: concatenate the digits; if the concatenation contains `"?"`
or is empty, the decoded ID is the sentinel `"ERROR"`. -/
def specStudentId (fill : BubbleDef → ℚ) (columns : List StudentIDColumn)
    (absoluteThreshold relativeThreshold minDarkness : ℚ) : String :=
  if containsChar (String.join (specIdDigits fill columns absoluteThreshold
        relativeThreshold minDarkness)) '?' ∨
      String.join (specIdDigits fill columns absoluteThreshold
        relativeThreshold minDarkness) = "" then
    "ERROR"
  else
    String.join (specIdDigits fill columns absoluteThreshold relativeThreshold
      minDarkness)

/-- Spec §4.4, answer policy for one question: select every bubble scoring
at or above the absolute threshold and comma-join the sorted labels; when
none qualifies, an empty answer if the best score is below `minDarkness`,
and otherwise all bubbles at or above
`cutoff = max(absoluteThreshold × 0.5, best × relativeThreshold)` — just
the best bubble if that selects none. -/
def specAnswer (scores : List (String × ℚ))
    (absoluteThreshold relativeThreshold minDarkness : ℚ) : String :=
  if (scores.filter (fun p => absoluteThreshold ≤ p.2)).map Prod.fst ≠ [] then
    joinComma (sortAsc ((scores.filter (fun p => absoluteThreshold ≤ p.2)).map Prod.fst))
  else
    match pyMax scores with
    | none => ""
    | some (bestLabel, best) =>
      if best < minDarkness then ""
      else
        joinComma (sortAsc
          (if (scores.filter (fun p =>
                max (absoluteThreshold * (1/2)) (best * relativeThreshold) ≤ p.2)).map
              Prod.fst = [] then
            [bestLabel]
          else
            (scores.filter (fun p =>
              max (absoluteThreshold * (1/2)) (best * relativeThreshold) ≤ p.2)).map
              Prod.fst))

/-! ## Alignment estimator (`_build_layout_to_image_transform`)

The OpenCV primitives (`_detect_alignment_markers`,
`_detect_guided_alignment_markers`, `_detect_page_corners`,
`cv2.getPerspectiveTransform`) operate on the raster image and are
modelled as oracle parameters (`CVOracles`); `_detect_page_corners`
returns either `None` or exactly four corner points.  All arithmetic and
control flow of the function itself is embedded directly; Python float
division, which raises `ZeroDivisionError` on a zero divisor, is `pydiv`. -/

/-- An alignment marker from the layout (`{x, y, size, type}`). -/
structure AlignmentMarker where
  x : ℚ
  y : ℚ
  size : ℚ
deriving DecidableEq

/-- `LayoutGuide` from `scanner.py`; `metadata` is modelled by the single
`margin` value the alignment code reads (`metadata.get("margin", 0.0)`). -/
structure LayoutGuide where
  width : ℚ
  height : ℚ
  questions : List QuestionDef
  student_id_columns : List StudentIDColumn
  alignment_markers : List AlignmentMarker
  margin : ℚ

/-- A 3×3 transform matrix. -/
structure Mat3 where
  m00 : ℚ
  m01 : ℚ
  m02 : ℚ
  m10 : ℚ
  m11 : ℚ
  m12 : ℚ
  m20 : ℚ
  m21 : ℚ
  m22 : ℚ
deriving DecidableEq

/-- The axis-aligned scale matrix of the proportional fallback. -/
def scaleTransform (sx sy : ℚ) : Mat3 := ⟨sx, 0, 0, 0, sy, 0, 0, 0, 1⟩

/-- Oracles for the computer-vision primitives the function calls. -/
structure CVOracles where
  detect_alignment_markers : List (ℚ × ℚ)
  detect_guided_alignment_markers : ℤ → List (ℚ × ℚ)
  detect_page_corners : Option ((ℚ × ℚ) × (ℚ × ℚ) × (ℚ × ℚ) × (ℚ × ℚ))
  get_perspective_transform : List (ℚ × ℚ) → List (ℚ × ℚ) → Mat3

/-- Python float division: `none` models `ZeroDivisionError`. -/
def pydiv (a b : ℚ) : Option ℚ := if b = 0 then none else some (a / b)

/-- `_to_top_left_coords`. -/
def to_top_left_coords (x y layout_height : ℚ) : ℚ × ℚ :=
  (x, layout_height - y)

/-- First element minimizing `f` (`np.argmin` returns the first index). -/
def firstMinBy (f : ℚ × ℚ → ℚ) : List (ℚ × ℚ) → ℚ × ℚ
  | [] => (0, 0)
  | p :: ps => ps.foldl (fun best q => if f q < f best then q else best) p

/-- First element maximizing `f` (`np.argmax` returns the first index). -/
def firstMaxBy (f : ℚ × ℚ → ℚ) : List (ℚ × ℚ) → ℚ × ℚ
  | [] => (0, 0)
  | p :: ps => ps.foldl (fun best q => if f best < f q then q else best) p

/-- `_order_points_clockwise`: top-left, top-right, bottom-right,
bottom-left, by coordinate sum/difference extremes. -/
def order_points_clockwise (points : List (ℚ × ℚ)) : List (ℚ × ℚ) :=
  [firstMinBy (fun p => p.1 + p.2) points,
   firstMinBy (fun p => p.2 - p.1) points,
   firstMaxBy (fun p => p.1 + p.2) points,
   firstMaxBy (fun p => p.2 - p.1) points]

/-- Maximum of a list of rationals (0 for the empty list, which the
function never hits on its four-point inputs). -/
def listMax (l : List ℚ) : ℚ := l.foldl max (l.headD 0)

/-- Minimum of a list of rationals. -/
def listMin (l : List ℚ) : ℚ := l.foldl min (l.headD 0)

/-- Tier 1/3 of `_build_layout_to_image_transform` (lines 287–317):
marker-based perspective solve with the span validation. -/
def markerTier (layout : LayoutGuide) (image_h image_w : ℕ)
    (cv : CVOracles) (layout_markers : List AlignmentMarker)
    (detected_markers : List (ℚ × ℚ)) (guided_used : Bool) :
    Option Mat3 × List String :=
  if layout_markers.length = 4 ∧ detected_markers.length = 4 then
    let layout_points := layout_markers.map
      (fun m => to_top_left_coords (m.x + m.size / 2) (m.y + m.size / 2)
        layout.height)
    let layout_points_ordered := order_points_clockwise layout_points
    let detected_ordered := order_points_clockwise detected_markers
    let span_w := listMax (detected_ordered.map Prod.fst) -
      listMin (detected_ordered.map Prod.fst)
    let span_h := listMax (detected_ordered.map Prod.snd) -
      listMin (detected_ordered.map Prod.snd)
    let min_span_w := (image_w : ℚ) * (1/4)
    let min_span_h := (image_h : ℚ) * (1/4)
    if min_span_w ≤ span_w ∧ min_span_h ≤ span_h then
      (some (cv.get_perspective_transform layout_points_ordered detected_ordered),
       if guided_used then ["Alignment markers recovered via guided search."]
       else [])
    else
      (none, ["Detected markers cover too small an area; using proportional mapping."])
  else (none, [])

/-- The inner-border-frame test of the border tier (lines 332–352): the
insets of the ordered detected border against the inset ratios expected
from the layout `margin`; `none` models the `ZeroDivisionError` raised by
the expected-ratio divisions when a layout dimension is zero. -/
def borderUseFrame (layout : LayoutGuide) (image_h image_w : ℕ)
    (page_ordered : List (ℚ × ℚ)) : Option Bool :=
  if 0 < layout.margin / 2 then
    match pydiv (2 * (layout.margin / 2)) layout.width,
        pydiv (2 * (layout.margin / 2)) layout.height with
    | some expected_sum_ratio_x, some expected_sum_ratio_y =>
      some (decide
        ((|(max 0 (listMin (page_ordered.map Prod.fst)) +
              max 0 ((image_w : ℚ) - listMax (page_ordered.map Prod.fst))) /
             max 1 (image_w : ℚ) - expected_sum_ratio_x| ≤
           max (2/100) (expected_sum_ratio_x * (6/10))) ∧
         (|(max 0 (listMin (page_ordered.map Prod.snd)) +
              max 0 ((image_h : ℚ) - listMax (page_ordered.map Prod.snd))) /
             max 1 (image_h : ℚ) - expected_sum_ratio_y| ≤
           max (2/100) (expected_sum_ratio_y * (6/10)))))
    | _, _ => none
  else some false

/-- Tier 4 of `_build_layout_to_image_transform` (lines 320–381):
page-border fallback, including the inner-border-frame test driven by the
layout `margin`. -/
def borderTier (layout : LayoutGuide) (image_h image_w : ℕ)
    (cv : CVOracles)
    (pc : (ℚ × ℚ) × (ℚ × ℚ) × (ℚ × ℚ) × (ℚ × ℚ)) :
    Option (Mat3 × List String) :=
  match borderUseFrame layout image_h image_w
      (order_points_clockwise [pc.1, pc.2.1, pc.2.2.1, pc.2.2.2]) with
  | none => none
  | some use_border_frame =>
    if use_border_frame then
      some (cv.get_perspective_transform
        (order_points_clockwise
          [to_top_left_coords (layout.margin / 2)
             (layout.height - layout.margin / 2) layout.height,
           to_top_left_coords (layout.width - layout.margin / 2)
             (layout.height - layout.margin / 2) layout.height,
           to_top_left_coords (layout.width - layout.margin / 2)
             (layout.margin / 2) layout.height,
           to_top_left_coords (layout.margin / 2) (layout.margin / 2)
             layout.height])
        (order_points_clockwise [pc.1, pc.2.1, pc.2.2.1, pc.2.2.2]),
        ["Detected inner border frame for alignment."])
    else
      some (cv.get_perspective_transform
        (order_points_clockwise
          [to_top_left_coords 0 layout.height layout.height,
           to_top_left_coords layout.width layout.height layout.height,
           to_top_left_coords layout.width 0 layout.height,
           to_top_left_coords 0 0 layout.height])
        (order_points_clockwise [pc.1, pc.2.1, pc.2.2.1, pc.2.2.2]),
        ["Using page border for alignment."])

/-- The markers detected in the full image (lines 272–273): detection is
attempted only when the layout defines alignment markers. -/
def detectedMarkers0 (layout : LayoutGuide) (cv : CVOracles) : List (ℚ × ℚ) :=
  if layout.alignment_markers.take 4 ≠ [] then cv.detect_alignment_markers
  else []

/-- The effective detected markers after the guided recovery pass
(lines 275–281), together with the `guided_used` flag.  The guided search
window is `int(max(image_w, image_h) * 0.12)`. -/
def effectiveMarkers (layout : LayoutGuide) (image_h image_w : ℕ)
    (cv : CVOracles) : List (ℚ × ℚ) × Bool :=
  if (layout.alignment_markers.take 4).length = 4 ∧
      (detectedMarkers0 layout cv).length < 4 then
    if (cv.detect_guided_alignment_markers
        (Int.floor ((max (image_w : ℚ) (image_h : ℚ)) * (12/100)))).length = 4 then
      (cv.detect_guided_alignment_markers
        (Int.floor ((max (image_w : ℚ) (image_h : ℚ)) * (12/100))), true)
    else (detectedMarkers0 layout cv, false)
  else (detectedMarkers0 layout cv, false)

/-- `_build_layout_to_image_transform`: build the layout→image transform
with the tiered fallback; `none` models a raised exception
(`ZeroDivisionError` from a zero layout dimension). -/
def build_layout_to_image_transform (layout : LayoutGuide)
    (image_h image_w : ℕ) (cv : CVOracles) :
    Option (Mat3 × List String) :=
  match markerTier layout image_h image_w cv (layout.alignment_markers.take 4)
      (effectiveMarkers layout image_h image_w cv).1
      (effectiveMarkers layout image_h image_w cv).2 with
  | (some matrix, w1) => some (matrix, w1)
  | (none, w1) =>
    match cv.detect_page_corners with
    | some pc =>
      match borderTier layout image_h image_w cv pc with
      | none => none
      | some (matrix, wb) => some (matrix, w1 ++ wb)
    | none =>
      match pydiv (image_w : ℚ) layout.width,
          pydiv (image_h : ℚ) layout.height with
      | some scale_x, some scale_y =>
        some (scaleTransform scale_x scale_y,
          if (layout.alignment_markers.take 4).length < 4 then
            w1 ++ ["Insufficient layout markers; using proportional mapping."]
          else if (effectiveMarkers layout image_h image_w cv).1.length < 4 then
            w1 ++ ["Failed to detect alignment markers; using proportional mapping."]
          else w1)
      | _, _ => none

/-! ## Job orchestrator (`grading_manager.py`, `process_scans`)

The page loop of `GradingJobManager.process_scans` (lines 216–261): the
PDF-to-image conversion is the input page list, `scanner.scan_image` is an
oracle that may raise (`Except String`), and the inserted
`student_responses` rows are accumulated in order. -/

/-- A scan result as produced by `BubbleSheetScanner.scan_image`. -/
structure ScanRes where
  student_id : String
  answers : List (ℤ × String)
  warnings : List String

/-- A `student_responses` row as inserted by `process_scans`. -/
structure ResponseRow where
  page_number : ℕ
  student_id : String
  answers : List (ℤ × String)
  scan_status : String
  scan_warnings : Option (List String)
deriving DecidableEq

/-- One iteration of the page loop: the row inserted for a page, with the
per-page `except Exception` handler. -/
def rowForPage {Img : Type} (scan : ℕ → Img → Except String ScanRes)
    (page : ℕ × Img) : ResponseRow :=
  match scan page.1 page.2 with
  | .ok result =>
    { page_number := page.1,
      student_id := result.student_id,
      answers := result.answers,
      scan_status := if result.student_id ≠ "ERROR" then "OK" else "ERROR",
      scan_warnings :=
        if result.warnings ≠ [] then some result.warnings else none }
  | .error e =>
    { page_number := page.1, student_id := "ERROR", answers := [],
      scan_status := "ERROR", scan_warnings := some [e] }

/-- Whether a page increments `num_students` (scan succeeded and the
student ID is not the sentinel). -/
def pageCountsAsStudent {Img : Type} (scan : ℕ → Img → Except String ScanRes)
    (page : ℕ × Img) : Bool :=
  match scan page.1 page.2 with
  | .ok result => result.student_id ≠ "ERROR"
  | .error _ => false

/-- One iteration of the page loop over the accumulated
`(rows, num_students, num_errors)` state. -/
def processStep {Img : Type} (scan : ℕ → Img → Except String ScanRes)
    (acc : List ResponseRow × ℕ × ℕ) (page : ℕ × Img) :
    List ResponseRow × ℕ × ℕ :=
  match scan page.1 page.2 with
  | .ok result =>
    (acc.1 ++ [rowForPage scan page],
     if result.student_id = "ERROR" then acc.2.1 else acc.2.1 + 1,
     if result.student_id = "ERROR" then acc.2.2 + 1 else acc.2.2)
  | .error _ =>
    (acc.1 ++ [rowForPage scan page], acc.2.1, acc.2.2 + 1)

/-- `process_scans`: process every page, isolating per-page failures;
returns the inserted rows, the final job status, `num_students` and
`num_errors`. -/
def process_scans {Img : Type} (scan : ℕ → Img → Except String ScanRes)
    (pages : List (ℕ × Img)) : List ResponseRow × String × ℕ × ℕ :=
  ((pages.foldl (processStep scan) ([], 0, 0)).1, "SCANNED",
   (pages.foldl (processStep scan) ([], 0, 0)).2.1,
   (pages.foldl (processStep scan) ([], 0, 0)).2.2)

/-! ## Properties of the rounding function -/

theorem floor_div_le_pyRound2 (x : ℚ) :
    ((⌊x * 100⌋ : ℚ)) / 100 ≤ pyRound2 x := by
  unfold pyRound2
  split_ifs <;>
    first
      | exact le_refl _
      | exact div_le_div_of_nonneg_right (by push_cast; linarith) (by norm_num)

theorem pyRound2_le_floor_add_one (x : ℚ) :
    pyRound2 x ≤ ((⌊x * 100⌋ : ℚ) + 1) / 100 := by
  unfold pyRound2
  split_ifs <;>
    first
      | exact le_refl _
      | exact div_le_div_of_nonneg_right (by push_cast; linarith) (by norm_num)

theorem pyRound2_mono {x y : ℚ} (h : x ≤ y) : pyRound2 x ≤ pyRound2 y := by
  have h100 : x * 100 ≤ y * 100 := by linarith
  have hfl : ⌊x * 100⌋ ≤ ⌊y * 100⌋ := Int.floor_mono h100
  rcases eq_or_lt_of_le hfl with heq | hlt
  · have hfx : x * 100 - ⌊x * 100⌋ ≤ y * 100 - ⌊y * 100⌋ := by
      rw [← heq]; linarith
    unfold pyRound2
    rw [show ⌊y * 100⌋ = ⌊x * 100⌋ from heq.symm]
    split_ifs <;>
      first
        | exact le_refl _
        | (exfalso; linarith)
        | exact div_le_div_of_nonneg_right (by push_cast; linarith) (by norm_num)
  · calc pyRound2 x ≤ ((⌊x * 100⌋ : ℚ) + 1) / 100 := pyRound2_le_floor_add_one x
      _ ≤ ((⌊y * 100⌋ : ℚ)) / 100 := by
          apply div_le_div_of_nonneg_right _ (by norm_num)
          have : (⌊x * 100⌋ : ℤ) + 1 ≤ ⌊y * 100⌋ := hlt
          exact_mod_cast this
      _ ≤ pyRound2 y := floor_div_le_pyRound2 y

theorem pyRound2_zero : pyRound2 0 = 0 := by
  norm_num [pyRound2]

theorem pyRound2_nonneg {x : ℚ} (h : 0 ≤ x) : 0 ≤ pyRound2 x := by
  have := pyRound2_mono h
  rwa [pyRound2_zero] at this

/-! ## Grading engine: helper lemmas -/

theorem multiSelectScore_eq (spec : QuestionSpec) (S : Finset String)
    (hp : 0 ≤ spec.points) (hc : 0 < spec.correct_options.card) :
    multiSelectScore spec S =
      .ok (pyRound2 (max 0
        ((((S ∩ spec.correct_options).card : ℚ) -
            ((S \ spec.correct_options).card : ℚ)) *
          spec.points / (spec.correct_options.card : ℚ)) + scoreEps)) := by
  unfold multiSelectScore score_multiple_select QuestionSpec.num_correct
  have h1 : ¬ spec.points < 0 := not_lt.mpr hp
  have h2 : ¬ ((spec.correct_options.card : ℤ) ≤ 0) := by
    simp only [not_le]
    exact_mod_cast hc
  have h3 : ¬ (((S ∩ spec.correct_options).card : ℤ) < 0 ∨
      ((S \ spec.correct_options).card : ℤ) < 0) := by
    push_neg
    constructor <;> positivity
  have hcard : (S ∩ spec.correct_options).card ≤ spec.correct_options.card :=
    Finset.card_le_card Finset.inter_subset_right
  have h4 : ¬ ((spec.correct_options.card : ℤ) <
      ((S ∩ spec.correct_options).card : ℤ)) := by
    simp only [not_lt]
    exact_mod_cast hcard
  rw [if_neg h1, if_neg h2, if_neg h3, if_neg h4]
  push_cast
  ring_nf

theorem gradeQuestion_eq_multiSelectScore (spec : QuestionSpec)
    (student_answer : String) (hm : 1 < spec.correct_options.card) :
    gradeQuestion spec student_answer =
      multiSelectScore spec (tokenize_answers student_answer).toFinset := by
  unfold gradeQuestion multiSelectScore
  have : spec.is_multiple = true := by
    simp [QuestionSpec.is_multiple, hm]
  rw [if_neg (by simp [this])]

/-! ## Claim theorems: grading engine -/

/-- C1: for the answer key
`[{question: "Q1", answer: "b", points: 1}, {question: "Q2", answer: "a,b,c", points: 4}]`
and the student answer map `{Q1: "b", Q2: "a,b"}`, `grade_response` returns
per-question scores `Q1 = 1.0` and `Q2 = 2.67`, total score `3.67`, and
percent grade `73.4`. -/
theorem C1_end_to_end_scenario :
    (buildGrader [("Q1", "b", 1), ("Q2", "a,b,c", 4)]).bind
      (fun g => gradeResponse g [("Q1", "b"), ("Q2", "a,b")]) =
    .ok (367/100, 367/5, [("Q1", 1), ("Q2", 267/100)]) := by
  show Except.ok
      ((pyRound2 (0 + 1 + pyRound2 (max 0 (((2 - 0 : ℤ) : ℚ) * (4 / ((3:ℤ) : ℚ))) + scoreEps)) : ℚ),
       (if 0 < (0 + 1 + 4 : ℚ) then
          pyRound2 (pyRound2 (0 + 1 + pyRound2 (max 0 (((2 - 0 : ℤ) : ℚ) * (4 / ((3:ℤ) : ℚ))) + scoreEps))
            / (0 + 1 + 4 : ℚ) * 100)
        else 0),
       [("Q1", pyRound2 1), ("Q2", pyRound2 (pyRound2 (max 0 (((2 - 0 : ℤ) : ℚ) * (4 / ((3:ℤ) : ℚ))) + scoreEps)))]) =
    .ok (367/100, 367/5, [("Q1", 1), ("Q2", 267/100)])
  have hX : pyRound2 (max 0 (((2 - 0 : ℤ) : ℚ) * (4 / ((3:ℤ) : ℚ))) + scoreEps) = 267/100 := by
    norm_num [pyRound2, scoreEps]
  rw [hX]
  norm_num [pyRound2]

/-- C2: for every multi-select question spec with points `p ≥ 0` and
correct-option set `C` (multi-select: `|C| > 1`), and every student answer
string with normalized token set `S`, the per-question score computed by
`grade_response` equals `round(max(0, (hits − extras) × p/|C|), 2)` with
`hits = |S ∩ C|` and `extras = |S − C|`, where `round` is the
implementation's rounding of a score (Python `round(· + 1e-12, 2)`,
modelled by `pyRound2 (· + scoreEps)`). -/
theorem C2_multi_select_formula (spec : QuestionSpec) (student_answer : String)
    (hm : 1 < spec.correct_options.card) (hp : 0 ≤ spec.points) :
    gradeQuestion spec student_answer =
      .ok (pyRound2 (max 0
        (((((tokenize_answers student_answer).toFinset ∩ spec.correct_options).card : ℚ) -
            (((tokenize_answers student_answer).toFinset \ spec.correct_options).card : ℚ)) *
          spec.points / (spec.correct_options.card : ℚ)) + scoreEps)) := by
  rw [gradeQuestion_eq_multiSelectScore spec student_answer hm]
  exact multiSelectScore_eq spec _ hp (Nat.lt_of_lt_of_le Nat.zero_lt_one hm.le)

theorem C2_multi_select_formula_witness :
    (1 < ({"a", "b"} : Finset String).card) ∧ (0 : ℚ) ≤ 1 ∧
    gradeQuestion ⟨"Q1", {"a", "b"}, 1⟩ "a" =
      .ok (pyRound2 (max 0
        (((((tokenize_answers "a").toFinset ∩ ({"a", "b"} : Finset String)).card : ℚ) -
            (((tokenize_answers "a").toFinset \ ({"a", "b"} : Finset String)).card : ℚ)) *
          (1 : ℚ) / (({"a", "b"} : Finset String).card : ℚ)) + scoreEps)) :=
  ⟨by decide, by norm_num,
    C2_multi_select_formula ⟨"Q1", {"a", "b"}, 1⟩ "a" (by decide) (by norm_num)⟩

/-- C3: for every single-select question spec (exactly one correct option)
with points `p`, the per-question score is `p` when the student's
normalized token set equals the correct-option set exactly, and `0` for
any other token set. -/
theorem C3_single_select_all_or_nothing (spec : QuestionSpec)
    (student_answer : String) (h1 : spec.correct_options.card = 1) :
    gradeQuestion spec student_answer =
      .ok (if (tokenize_answers student_answer).toFinset = spec.correct_options
           then spec.points else 0) := by
  unfold gradeQuestion
  have : spec.is_multiple = false := by
    simp [QuestionSpec.is_multiple, h1]
  rw [if_pos (by simp [this])]

theorem C3_single_select_all_or_nothing_witness :
    (({"b"} : Finset String).card = 1) ∧
    gradeQuestion ⟨"Q1", {"b"}, 1⟩ "b" =
      .ok (if (tokenize_answers "b").toFinset = ({"b"} : Finset String)
           then (1 : ℚ) else 0) :=
  ⟨by decide, C3_single_select_all_or_nothing ⟨"Q1", {"b"}, 1⟩ "b" (by decide)⟩

/-- C4, counterexample to "the score always lies in `[0, p]`": with
points `p = 0.005` and correct set `{a, b}`, selecting exactly `{a, b}`
scores `round(0.005 + 1e-12, 2) = 0.01 > p` (likewise in Python, where
`round(0.005/2*2 + 1e-12, 2) = 0.01`). -/
theorem C4_score_exceeds_points :
    gradeQuestion ⟨"Q1", {"a", "b"}, 1/200⟩ "a,b" = .ok (1/100) ∧
    ¬ ((1 : ℚ)/100 ≤ 1/200) := by
  constructor
  · rw [gradeQuestion_eq_multiSelectScore _ _ (by decide),
      multiSelectScore_eq _ _ (by norm_num) (by decide)]
    have h1 : ((tokenize_answers "a,b").toFinset ∩
        ({"a", "b"} : Finset String)).card = 2 := by decide
    have h2 : ((tokenize_answers "a,b").toFinset \
        ({"a", "b"} : Finset String)).card = 0 := by decide
    have h3 : ({"a", "b"} : Finset String).card = 2 := by decide
    rw [h1, h2, h3]
    norm_num [pyRound2, scoreEps]
  · norm_num

/-- C4 amended: multi-select scoring is monotonic — adding a correct
selection never decreases the score and adding an incorrect selection
never increases it — and the score lies in
`[0, round(points + 1e-12, 2)]`; the claimed upper bound `points` itself
can be exceeded by the rounding (see the counterexample), though it holds
whenever `points` is a whole number of hundredths. -/
theorem C4_monotonic_bounded (spec : QuestionSpec) (S : Finset String)
    (a : String) (hp : 0 ≤ spec.points)
    (hm : 1 < spec.correct_options.card) :
    (0 ≤ okValue (multiSelectScore spec S) ∧
      okValue (multiSelectScore spec S) ≤ pyRound2 (spec.points + scoreEps)) ∧
    (a ∈ spec.correct_options → a ∉ S →
      okValue (multiSelectScore spec S) ≤
        okValue (multiSelectScore spec (insert a S))) ∧
    (a ∉ spec.correct_options → a ∉ S →
      okValue (multiSelectScore spec (insert a S)) ≤
        okValue (multiSelectScore spec S)) := by
  have hc : 0 < spec.correct_options.card := Nat.lt_of_lt_of_le Nat.zero_lt_one hm.le
  have hcQ : (0 : ℚ) < (spec.correct_options.card : ℚ) := by exact_mod_cast hc
  have heps : (0 : ℚ) ≤ scoreEps := by norm_num [scoreEps]
  have hval : ∀ T : Finset String,
      okValue (multiSelectScore spec T) =
        pyRound2 (max 0
          ((((T ∩ spec.correct_options).card : ℚ) -
              ((T \ spec.correct_options).card : ℚ)) *
            spec.points / (spec.correct_options.card : ℚ)) + scoreEps) := by
    intro T
    rw [multiSelectScore_eq spec T hp hc]
    rfl
  refine ⟨⟨?_, ?_⟩, ?_, ?_⟩
  · rw [hval]
    apply pyRound2_nonneg
    exact add_nonneg (le_max_left _ _) heps
  · rw [hval]
    apply pyRound2_mono
    have hhits : ((S ∩ spec.correct_options).card : ℚ) ≤
        (spec.correct_options.card : ℚ) := by
      exact_mod_cast Finset.card_le_card Finset.inter_subset_right
    have he : (0 : ℚ) ≤ ((S \ spec.correct_options).card : ℚ) := by positivity
    have hR : (((S ∩ spec.correct_options).card : ℚ) -
        ((S \ spec.correct_options).card : ℚ)) *
          spec.points / (spec.correct_options.card : ℚ) ≤ spec.points := by
      rw [div_le_iff₀ hcQ]
      nlinarith
    have : max 0 ((((S ∩ spec.correct_options).card : ℚ) -
        ((S \ spec.correct_options).card : ℚ)) *
          spec.points / (spec.correct_options.card : ℚ)) ≤ spec.points :=
      max_le hp hR
    linarith
  · intro ha haS
    rw [hval, hval]
    apply pyRound2_mono
    have hnotmem : a ∉ S ∩ spec.correct_options := fun hmem =>
      haS (Finset.mem_inter.mp hmem).1
    rw [Finset.insert_inter_of_mem ha, Finset.card_insert_of_not_mem hnotmem,
      Finset.insert_sdiff_of_mem S ha]
    have : ((((S ∩ spec.correct_options).card : ℚ)) -
        ((S \ spec.correct_options).card : ℚ)) *
          spec.points / (spec.correct_options.card : ℚ) ≤
        ((((S ∩ spec.correct_options).card + 1 : ℕ) : ℚ) -
          ((S \ spec.correct_options).card : ℚ)) *
          spec.points / (spec.correct_options.card : ℚ) := by
      apply div_le_div_of_nonneg_right _ hcQ.le
      apply mul_le_mul_of_nonneg_right _ hp
      push_cast
      linarith
    have hmax := max_le_max (le_refl (0 : ℚ)) this
    linarith
  · intro ha haS
    rw [hval, hval]
    apply pyRound2_mono
    have hnotmem : a ∉ S \ spec.correct_options := fun hmem =>
      haS (Finset.mem_sdiff.mp hmem).1
    rw [Finset.insert_inter_of_not_mem ha,
      Finset.insert_sdiff_of_not_mem S ha,
      Finset.card_insert_of_not_mem hnotmem]
    have : ((((S ∩ spec.correct_options).card : ℚ)) -
        (((S \ spec.correct_options).card + 1 : ℕ) : ℚ)) *
          spec.points / (spec.correct_options.card : ℚ) ≤
        ((((S ∩ spec.correct_options).card : ℕ) : ℚ) -
          ((S \ spec.correct_options).card : ℚ)) *
          spec.points / (spec.correct_options.card : ℚ) := by
      apply div_le_div_of_nonneg_right _ hcQ.le
      apply mul_le_mul_of_nonneg_right _ hp
      push_cast
      linarith
    have hmax := max_le_max (le_refl (0 : ℚ)) this
    linarith

theorem C4_monotonic_bounded_witness :
    ((0 : ℚ) ≤ 1 ∧ 1 < ({"a", "b"} : Finset String).card) ∧
    ((0 ≤ okValue (multiSelectScore ⟨"Q1", {"a", "b"}, 1⟩ ∅) ∧
      okValue (multiSelectScore ⟨"Q1", {"a", "b"}, 1⟩ ∅) ≤
        pyRound2 ((1 : ℚ) + scoreEps)) ∧
    ("a" ∈ ({"a", "b"} : Finset String) → "a" ∉ (∅ : Finset String) →
      okValue (multiSelectScore ⟨"Q1", {"a", "b"}, 1⟩ ∅) ≤
        okValue (multiSelectScore ⟨"Q1", {"a", "b"}, 1⟩ (insert "a" ∅))) ∧
    ("a" ∉ ({"a", "b"} : Finset String) → "a" ∉ (∅ : Finset String) →
      okValue (multiSelectScore ⟨"Q1", {"a", "b"}, 1⟩ (insert "a" ∅)) ≤
        okValue (multiSelectScore ⟨"Q1", {"a", "b"}, 1⟩ ∅))) :=
  ⟨⟨by norm_num, by decide⟩,
    C4_monotonic_bounded ⟨"Q1", {"a", "b"}, 1⟩ ∅ "a" (by norm_num) (by decide)⟩

theorem gradeQuestion_ne_guard_error (spec : QuestionSpec) (s : String) :
    gradeQuestion spec s ≠
      .error "selected_correct cannot exceed number of correct options." := by
  by_cases hmul : spec.is_multiple = true
  · have hm : 1 < spec.correct_options.card := by
      simpa [QuestionSpec.is_multiple] using hmul
    rw [gradeQuestion_eq_multiSelectScore spec s hm]
    unfold multiSelectScore score_multiple_select
    split_ifs with h1 h2 h3 h4
    · simp only [ne_eq, Except.error.injEq]; decide
    · simp
    · simp only [ne_eq, Except.error.injEq]; decide
    · exfalso
      have hle : ((tokenize_answers s).toFinset ∩ spec.correct_options).card ≤
          spec.correct_options.card :=
        Finset.card_le_card Finset.inter_subset_right
      have : ¬ ((spec.num_correct : ℤ) <
          (((tokenize_answers s).toFinset ∩ spec.correct_options).card : ℤ)) := by
        simp only [not_lt, QuestionSpec.num_correct]
        exact_mod_cast hle
      exact this h4
    · simp
  · unfold gradeQuestion
    rw [if_pos (by simp_all)]
    simp

theorem gradeLoop_ne_guard_error (answers : List (String × String))
    (specs : List QuestionSpec) :
    ∀ (total : ℚ) (perQ : List (String × ℚ)),
      gradeLoop answers specs total perQ ≠
        .error "selected_correct cannot exceed number of correct options." := by
  induction specs with
  | nil => intro total perQ; simp [gradeLoop]
  | cons spec rest ih =>
    intro total perQ
    unfold gradeLoop
    cases hq : gradeQuestion spec
        ((findStudentAnswer spec.question_id answers).getD "") with
    | error e =>
      have hne := gradeQuestion_ne_guard_error spec
        ((findStudentAnswer spec.question_id answers).getD "")
      rw [hq] at hne
      simpa using hne
    | ok score => exact ih _ _

/-- C8: the `InvalidScoreError` guard is unreachable from grading — the
hits count passed by `grade_response` is `|S ∩ C| ≤ |C|`, so neither the
per-question scoring nor `grade_response` as a whole ever produces the
"selected_correct cannot exceed number of correct options." error. -/
theorem C8_guard_unreachable (spec : QuestionSpec) (s : String) (g : Grader)
    (answers : List (String × String)) :
    ((tokenize_answers s).toFinset ∩ spec.correct_options).card ≤
      spec.correct_options.card ∧
    gradeQuestion spec s ≠
      .error "selected_correct cannot exceed number of correct options." ∧
    gradeResponse g answers ≠
      .error "selected_correct cannot exceed number of correct options." := by
  refine ⟨Finset.card_le_card Finset.inter_subset_right,
    gradeQuestion_ne_guard_error spec s, ?_⟩
  unfold gradeResponse
  cases hl : gradeLoop answers g.question_specs 0 [] with
  | error e =>
    have hne := gradeLoop_ne_guard_error answers g.question_specs 0 []
    rw [hl] at hne
    simpa using hne
  | ok p => simp

/-! ## Scanner decoding: helper lemmas -/

theorem pyMax_foldl_some (xs : List (String × ℚ)) :
    ∀ b : String × ℚ,
      ∃ p, xs.foldl (fun best item =>
        match best with
        | none => some item
        | some b => if b.2 < item.2 then some item else some b) (some b) = some p := by
  induction xs with
  | nil => intro b; exact ⟨b, rfl⟩
  | cons x xs ih =>
    intro b
    rw [List.foldl_cons]
    dsimp only
    by_cases hb : b.2 < x.2
    · rw [if_pos hb]; exact ih x
    · rw [if_neg hb]; exact ih b

theorem pyMax_some (scores : List (String × ℚ)) (h : scores ≠ []) :
    ∃ p, pyMax scores = some p := by
  match scores, h with
  | x :: xs, _ =>
    unfold pyMax
    rw [List.foldl_cons]
    dsimp only
    exact pyMax_foldl_some xs x

theorem decodeIdColumn_eq_specIdDigit (i : ℤ) (scores : List (String × ℚ))
    (th rt md : ℚ) (h : scores ≠ []) :
    ∃ w, decodeIdColumn i scores th rt md =
      some (specIdDigit scores th rt md, w) := by
  unfold decodeIdColumn specIdDigit
  rw [List.length_map]
  by_cases h1 : (scores.filter (fun p => th ≤ p.2)).length = 1
  · rw [if_pos h1, if_pos h1]
    exact ⟨[], rfl⟩
  · rw [if_neg h1, if_neg h1]
    obtain ⟨⟨bl, bs⟩, hp⟩ := pyMax_some scores h
    rw [hp]
    dsimp only
    split_ifs <;> exact ⟨_, rfl⟩

theorem mem_insertCol {d c : StudentIDColumn} {l : List StudentIDColumn} :
    d ∈ insertCol c l → d = c ∨ d ∈ l := by
  induction l with
  | nil => intro h; simp [insertCol] at h; exact Or.inl h
  | cons e es ih =>
    intro h
    unfold insertCol at h
    split_ifs at h with hc
    · rcases List.mem_cons.mp h with h | h
      · exact Or.inl h
      · exact Or.inr h
    · rcases List.mem_cons.mp h with h | h
      · exact Or.inr (List.mem_cons.mpr (Or.inl h))
      · rcases ih h with h | h
        · exact Or.inl h
        · exact Or.inr (List.mem_cons.mpr (Or.inr h))

theorem mem_sortCols {d : StudentIDColumn} {l : List StudentIDColumn} :
    d ∈ sortCols l → d ∈ l := by
  induction l with
  | nil => intro h; simp [sortCols] at h
  | cons c cs ih =>
    intro h
    unfold sortCols at h
    rcases mem_insertCol h with h | h
    · exact List.mem_cons.mpr (Or.inl h)
    · exact List.mem_cons.mpr (Or.inr (ih h))

theorem scanIdLoop_eq_spec (fill : BubbleDef → ℚ) (th rt md : ℚ)
    (cols : List StudentIDColumn) (h : ∀ c ∈ cols, c.bubbles ≠ []) :
    ∃ ws, scanIdLoop fill th rt md cols =
      some (cols.map (fun c =>
        specIdDigit (c.bubbles.map (fun b => (b.label, fill b))) th rt md), ws) := by
  induction cols with
  | nil => exact ⟨[], rfl⟩
  | cons c cs ih =>
    have hc : (c.bubbles.map (fun b => (b.label, fill b))) ≠ [] := by
      have := h c (List.mem_cons_self c cs)
      simpa using this
    obtain ⟨w, hw⟩ := decodeIdColumn_eq_specIdDigit c.digit_index _ th rt md hc
    obtain ⟨ws, hws⟩ := ih (fun x hx => h x (List.mem_cons_of_mem c hx))
    refine ⟨w ++ ws, ?_⟩
    unfold scanIdLoop
    rw [hw, hws]
    simp

/-- C5: student-ID decoding follows the per-column policy of the
specification (`specIdDigit`, in increasing `digit_index` order) and the
sentinel rule (`specStudentId`): the decoded ID is the concatenated
digits, replaced by `"ERROR"` with a warning appended when the
concatenation contains `"?"` or is empty.  Hypothesis: every column has
at least one bubble (otherwise the Python code raises `ValueError` on
`max([])`). -/
theorem C5_student_id_policy (fill : BubbleDef → ℚ)
    (columns : List StudentIDColumn) (th rt md : ℚ)
    (h : ∀ c ∈ columns, c.bubbles ≠ []) :
    ∃ ws, scan_student_id fill columns th rt md =
        some (specStudentId fill columns th rt md, ws) ∧
      ((containsChar (String.join (specIdDigits fill columns th rt md)) '?' ∨
          String.join (specIdDigits fill columns th rt md) = "") → ws ≠ []) := by
  have h' : ∀ c ∈ sortCols columns, c.bubbles ≠ [] :=
    fun c hc => h c (mem_sortCols hc)
  obtain ⟨ws, hws⟩ := scanIdLoop_eq_spec fill th rt md (sortCols columns) h'
  have hdig : (sortCols columns).map (fun c =>
      specIdDigit (c.bubbles.map (fun b => (b.label, fill b))) th rt md) =
      specIdDigits fill columns th rt md := rfl
  rw [hdig] at hws
  by_cases hq : containsChar (String.join (specIdDigits fill columns th rt md)) '?' ∨
      String.join (specIdDigits fill columns th rt md) = ""
  · refine ⟨ws ++ ["Student ID unresolved."], ?_, fun _ => by simp⟩
    unfold scan_student_id
    rw [hws]
    dsimp only
    unfold specStudentId
    simp only [if_pos hq]
  · refine ⟨ws, ?_, fun hcon => absurd hcon hq⟩
    unfold scan_student_id
    rw [hws]
    dsimp only
    unfold specStudentId
    simp only [if_neg hq]

theorem C5_student_id_policy_witness :
    ((∀ c ∈ [StudentIDColumn.mk 0 [⟨"3", 0, 0, 1⟩]], c.bubbles ≠ []) ∧
      ∃ ws, scan_student_id (fun _ => 1) [⟨0, [⟨"3", 0, 0, 1⟩]⟩] (7/20) (3/5) (2/25) =
          some (specStudentId (fun _ => 1) [⟨0, [⟨"3", 0, 0, 1⟩]⟩] (7/20) (3/5) (2/25), ws) ∧
        ((containsChar (String.join (specIdDigits (fun _ => 1)
              [⟨0, [⟨"3", 0, 0, 1⟩]⟩] (7/20) (3/5) (2/25))) '?' ∨
            String.join (specIdDigits (fun _ => 1)
              [⟨0, [⟨"3", 0, 0, 1⟩]⟩] (7/20) (3/5) (2/25)) = "") → ws ≠ [])) :=
  ⟨by simp, C5_student_id_policy (fun _ => 1) [⟨0, [⟨"3", 0, 0, 1⟩]⟩]
    (7/20) (3/5) (2/25) (by simp)⟩

/-- C6: answer decoding follows the stated per-question policy with
inclusive threshold comparisons: the per-question body of `_scan_answers`
returns exactly the answer described by the specification (`specAnswer`:
all bubbles with score ≥ `absoluteThreshold`, sorted and comma-joined;
otherwise the empty answer when the best score is below `minDarkness`,
and otherwise the bubbles at or above
`cutoff = max(absoluteThreshold × 0.5, best × relativeThreshold)`, or
just the best bubble when that selects none), with a warning emitted
exactly when no bubble reaches the absolute threshold. -/
theorem C6_answer_policy (fill : BubbleDef → ℚ) (q : QuestionDef)
    (th rt md : ℚ) (h : q.bubbles ≠ []) :
    ∃ w, decodeQuestion q.number (q.bubbles.map (fun b => (b.label, fill b)))
        th rt md =
        some (specAnswer (q.bubbles.map (fun b => (b.label, fill b))) th rt md,
          w) ∧
      (w = [] ↔ ((q.bubbles.map (fun b => (b.label, fill b))).filter
          (fun p => th ≤ p.2)).map Prod.fst ≠ []) := by
  have hsc : q.bubbles.map (fun b => (b.label, fill b)) ≠ [] := by
    simpa using h
  unfold decodeQuestion specAnswer
  by_cases h1 : ((q.bubbles.map (fun b => (b.label, fill b))).filter
      (fun p => th ≤ p.2)).map Prod.fst ≠ []
  · rw [if_pos h1, if_pos h1]
    exact ⟨[], rfl, iff_of_true rfl h1⟩
  · rw [if_neg h1, if_neg h1]
    obtain ⟨⟨bl, bs⟩, hp⟩ := pyMax_some _ hsc
    rw [hp]
    dsimp only
    by_cases h2 : bs < md
    · rw [if_pos h2, if_pos h2]
      exact ⟨_, rfl, iff_of_false (by simp) h1⟩
    · rw [if_neg h2, if_neg h2]
      exact ⟨_, rfl, iff_of_false (by simp) h1⟩

theorem C6_answer_policy_witness :
    ((QuestionDef.mk 1 [⟨"A", 0, 0, 1⟩]).bubbles ≠ []) ∧
    ∃ w, decodeQuestion (QuestionDef.mk 1 [⟨"A", 0, 0, 1⟩]).number
        ((QuestionDef.mk 1 [⟨"A", 0, 0, 1⟩]).bubbles.map
          (fun b => (b.label, (fun _ => (1 : ℚ)) b))) (7/20) (3/5) (2/25) =
        some (specAnswer ((QuestionDef.mk 1 [⟨"A", 0, 0, 1⟩]).bubbles.map
          (fun b => (b.label, (fun _ => (1 : ℚ)) b))) (7/20) (3/5) (2/25), w) ∧
      (w = [] ↔ (((QuestionDef.mk 1 [⟨"A", 0, 0, 1⟩]).bubbles.map
          (fun b => (b.label, (fun _ => (1 : ℚ)) b))).filter
          (fun p => (7 : ℚ)/20 ≤ p.2)).map Prod.fst ≠ []) :=
  ⟨by simp, C6_answer_policy (fun _ => 1) ⟨1, [⟨"A", 0, 0, 1⟩]⟩
    (7/20) (3/5) (2/25) (by simp)⟩

/-! ## Answers map coverage -/

theorem decodeQuestion_some (n : ℤ) (scores : List (String × ℚ))
    (th rt md : ℚ) (h : scores ≠ []) :
    ∃ r, decodeQuestion n scores th rt md = some r := by
  unfold decodeQuestion
  by_cases h1 : (scores.filter (fun p => th ≤ p.2)).map Prod.fst ≠ []
  · rw [if_pos h1]; exact ⟨_, rfl⟩
  · rw [if_neg h1]
    obtain ⟨⟨bl, bs⟩, hp⟩ := pyMax_some scores h
    rw [hp]
    dsimp only
    split_ifs <;> exact ⟨_, rfl⟩

theorem dictInsert_of_fresh (d : List (ℤ × String)) (k : ℤ) (v : String)
    (h : ∀ p ∈ d, p.1 ≠ k) : dictInsert d k v = d ++ [(k, v)] := by
  have hany : d.any (fun p => p.1 == k) = false := by
    rw [List.any_eq_false]
    intro p hp
    simp [h p hp]
  simp [dictInsert, hany]

theorem scanAnswersLoop_keys (fill : BubbleDef → ℚ) (th rt md : ℚ) :
    ∀ (qs : List QuestionDef) (acc : List (ℤ × String)) (ws : List String),
      (∀ q ∈ qs, q.bubbles ≠ []) →
      (qs.map QuestionDef.number).Nodup →
      (∀ q ∈ qs, ∀ p ∈ acc, p.1 ≠ q.number) →
      ∃ m w, scanAnswersLoop fill th rt md qs acc ws = some (m, w) ∧
        m.map Prod.fst = acc.map Prod.fst ++ qs.map QuestionDef.number := by
  intro qs
  induction qs with
  | nil => intro acc ws _ _ _; exact ⟨acc, ws, rfl, by simp⟩
  | cons q qs ih =>
    intro acc ws hne hnd hfresh
    have hq : (q.bubbles.map (fun b => (b.label, fill b))) ≠ [] := by
      simpa using hne q (List.mem_cons_self q qs)
    obtain ⟨⟨a, w⟩, hr⟩ := decodeQuestion_some q.number _ th rt md hq
    have hins : dictInsert acc q.number a = acc ++ [(q.number, a)] :=
      dictInsert_of_fresh acc q.number a
        (fun p hp => hfresh q (List.mem_cons_self q qs) p hp)
    have hnotin : q.number ∉ qs.map QuestionDef.number := by
      have hnd' : (q.number :: qs.map QuestionDef.number).Nodup := by
        simpa using hnd
      exact (List.nodup_cons.mp hnd').1
    have hfresh' : ∀ q' ∈ qs, ∀ p ∈ acc ++ [(q.number, a)], p.1 ≠ q'.number := by
      intro q' hq' p hp
      rcases List.mem_append.mp hp with hp | hp
      · exact hfresh q' (List.mem_cons_of_mem q hq') p hp
      · have hpq : p = (q.number, a) := by simpa using hp
        subst hpq
        intro hcontra
        exact hnotin (List.mem_map.mpr ⟨q', hq', hcontra.symm⟩)
    obtain ⟨m, w', hloop, hkeys⟩ := ih (acc ++ [(q.number, a)]) (ws ++ w)
      (fun x hx => hne x (List.mem_cons_of_mem q hx))
      (by
        have hnd' : (q.number :: qs.map QuestionDef.number).Nodup := by
          simpa using hnd
        exact (List.nodup_cons.mp hnd').2)
      hfresh'
    refine ⟨m, w', ?_, ?_⟩
    · unfold scanAnswersLoop
      rw [hr]
      dsimp only
      rw [hins]
      exact hloop
    · rw [hkeys]
      simp

/-- C10 counterexample: the claim fails for a layout guide containing a
question with no bubbles — `_scan_answers` then raises `ValueError` on
`max([])` (modelled: returns `none`), so no answers map at all is
produced, rather than a map with one entry per question. -/
theorem C10_counterexample :
    scan_answers (fun _ => 0) [⟨1, []⟩] (7/20) (3/5) (2/25) = none := rfl

/-- C10 amended: for every layout whose questions each have at least one
bubble and carry pairwise distinct question numbers, and every fill
measurement, `_scan_answers` returns an answers map with exactly one
entry per question, keyed by its question number in layout order — an
undetectable or too-light mark yields the empty string for its question,
never a missing key. -/
theorem C10_answers_cover_questions (fill : BubbleDef → ℚ)
    (questions : List QuestionDef) (th rt md : ℚ)
    (hne : ∀ q ∈ questions, q.bubbles ≠ [])
    (hnd : (questions.map QuestionDef.number).Nodup) :
    ∃ m w, scan_answers fill questions th rt md = some (m, w) ∧
      m.map Prod.fst = questions.map QuestionDef.number := by
  obtain ⟨m, w, hl, hk⟩ := scanAnswersLoop_keys fill th rt md questions [] []
    hne hnd (by simp)
  exact ⟨m, w, hl, by simpa using hk⟩

theorem C10_answers_cover_questions_witness :
    ((∀ q ∈ [QuestionDef.mk 1 [⟨"A", 0, 0, 1⟩]], q.bubbles ≠ []) ∧
      ([QuestionDef.mk 1 [⟨"A", 0, 0, 1⟩]].map QuestionDef.number).Nodup) ∧
    ∃ m w, scan_answers (fun _ => 0) [⟨1, [⟨"A", 0, 0, 1⟩]⟩] (7/20) (3/5) (2/25) =
        some (m, w) ∧
      m.map Prod.fst = [QuestionDef.mk 1 [⟨"A", 0, 0, 1⟩]].map QuestionDef.number :=
  ⟨⟨by simp, by simp⟩,
    C10_answers_cover_questions (fun _ => 0) [⟨1, [⟨"A", 0, 0, 1⟩]⟩]
      (7/20) (3/5) (2/25) (by simp) (by simp)⟩

/-! ## Job orchestrator -/

theorem processStep_foldl {Img : Type}
    (scan : ℕ → Img → Except String ScanRes) :
    ∀ (pages : List (ℕ × Img)) (rows : List ResponseRow) (ns ne : ℕ),
      pages.foldl (processStep scan) (rows, ns, ne) =
        (rows ++ pages.map (rowForPage scan),
         ns + pages.countP (pageCountsAsStudent scan),
         ne + pages.countP (fun p => ! pageCountsAsStudent scan p)) := by
  intro pages
  induction pages with
  | nil => intro rows ns ne; simp
  | cons p ps ih =>
    intro rows ns ne
    rw [List.foldl_cons]
    cases hs : scan p.1 p.2 with
    | ok r =>
      by_cases he : r.student_id = "ERROR"
      · have hstep : processStep scan (rows, ns, ne) p =
            (rows ++ [rowForPage scan p], ns, ne + 1) := by
          simp [processStep, hs, he]
        rw [hstep, ih]
        simp only [Prod.mk.injEq]
        refine ⟨by simp, ?_, ?_⟩
        · simp [List.countP_cons, pageCountsAsStudent, hs, he]
        · simp only [List.countP_cons, pageCountsAsStudent, hs, he]
          simp
          omega
      · have hstep : processStep scan (rows, ns, ne) p =
            (rows ++ [rowForPage scan p], ns + 1, ne) := by
          simp [processStep, hs, he]
        rw [hstep, ih]
        simp only [Prod.mk.injEq]
        refine ⟨by simp, ?_, ?_⟩
        · simp only [List.countP_cons, pageCountsAsStudent, hs]
          simp [he]
          omega
        · simp [List.countP_cons, pageCountsAsStudent, hs, he]
    | error e =>
      have hstep : processStep scan (rows, ns, ne) p =
          (rows ++ [rowForPage scan p], ns, ne + 1) := by
        simp [processStep, hs]
      rw [hstep, ih]
      simp only [Prod.mk.injEq]
      refine ⟨by simp, ?_, ?_⟩
      · simp [List.countP_cons, pageCountsAsStudent, hs]
      · simp only [List.countP_cons, pageCountsAsStudent, hs]
        simp
        omega

/-- C9: per-page failures are isolated — `process_scans` always produces
exactly one response row per page (in page order), reaches the `SCANNED`
status, counts as `num_students` the pages whose scan succeeded with a
non-sentinel student ID and as `num_errors` all other pages, and a page
whose scan raises is recorded with student ID `"ERROR"`, empty answers,
`"ERROR"` scan status and the exception message as its only warning,
while the remaining pages are still processed. -/
theorem C9_per_page_isolation {Img : Type}
    (scan : ℕ → Img → Except String ScanRes) (pages : List (ℕ × Img)) :
    process_scans scan pages =
      (pages.map (rowForPage scan), "SCANNED",
        pages.countP (pageCountsAsStudent scan),
        pages.countP (fun p => ! pageCountsAsStudent scan p)) ∧
    (process_scans scan pages).1.length = pages.length ∧
    (∀ p ∈ pages, ∀ e, scan p.1 p.2 = .error e →
      rowForPage scan p =
        { page_number := p.1, student_id := "ERROR", answers := [],
          scan_status := "ERROR", scan_warnings := some [e] }) := by
  have hmain : process_scans scan pages =
      (pages.map (rowForPage scan), "SCANNED",
        pages.countP (pageCountsAsStudent scan),
        pages.countP (fun p => ! pageCountsAsStudent scan p)) := by
    unfold process_scans
    rw [processStep_foldl]
    simp
  refine ⟨hmain, ?_, ?_⟩
  · rw [hmain]
    simp
  · intro p _ e herr
    simp [rowForPage, herr]

theorem C9_per_page_isolation_witness :
    process_scans (fun _ (_ : Unit) => Except.error "boom") [(0, ())] =
      ([(0, ())].map (rowForPage (fun _ (_ : Unit) => Except.error "boom")),
        "SCANNED",
        [(0, ())].countP (pageCountsAsStudent (fun _ (_ : Unit) => Except.error "boom")),
        [(0, ())].countP (fun p => ! pageCountsAsStudent
          (fun _ (_ : Unit) => Except.error "boom") p)) ∧
    (process_scans (fun _ (_ : Unit) => Except.error "boom") [(0, ())]).1.length =
      [(0, ())].length ∧
    (∀ p ∈ [((0 : ℕ), ())], ∀ e,
      (fun _ (_ : Unit) => (Except.error "boom" : Except String ScanRes)) p.1 p.2 = .error e →
      rowForPage (fun _ (_ : Unit) => Except.error "boom") p =
        { page_number := p.1, student_id := "ERROR", answers := [],
          scan_status := "ERROR", scan_warnings := some [e] }) :=
  C9_per_page_isolation (fun _ (_ : Unit) => Except.error "boom") [(0, ())]

/-! ## Alignment estimator -/

theorem pydiv_of_ne (a : ℚ) {b : ℚ} (h : b ≠ 0) : pydiv a b = some (a / b) := by
  simp [pydiv, h]

theorem borderUseFrame_some (layout : LayoutGuide) (image_h image_w : ℕ)
    (page_ordered : List (ℚ × ℚ)) (hw : layout.width ≠ 0)
    (hh : layout.height ≠ 0) :
    ∃ b, borderUseFrame layout image_h image_w page_ordered = some b := by
  unfold borderUseFrame
  by_cases hm : 0 < layout.margin / 2
  · rw [if_pos hm, pydiv_of_ne _ hw, pydiv_of_ne _ hh]
    exact ⟨_, rfl⟩
  · rw [if_neg hm]
    exact ⟨false, rfl⟩

theorem borderTier_some (layout : LayoutGuide) (image_h image_w : ℕ)
    (cv : CVOracles) (pc : (ℚ × ℚ) × (ℚ × ℚ) × (ℚ × ℚ) × (ℚ × ℚ))
    (hw : layout.width ≠ 0) (hh : layout.height ≠ 0) :
    ∃ m w, borderTier layout image_h image_w cv pc = some (m, w) := by
  unfold borderTier
  obtain ⟨b, hb⟩ := borderUseFrame_some layout image_h image_w
    (order_points_clockwise [pc.1, pc.2.1, pc.2.2.1, pc.2.2.2]) hw hh
  rw [hb]
  cases b <;> exact ⟨_, _, rfl⟩

/-- C7, counterexample to "never fails for every layout guide": a layout
with zero width (no markers, no detected page border) reaches the
proportional fallback, whose division `image_w / layout.width` raises
`ZeroDivisionError` in Python (modelled: returns `none` instead of a
transform). -/
theorem C7_counterexample :
    build_layout_to_image_transform ⟨0, 50, [], [], [], 0⟩ 100 100
      ⟨[], fun _ => [], none, fun _ _ => scaleTransform 0 0⟩ = none := rfl

/-- C7 amended: for every layout guide with positive width and height
(and any markers, detection outcomes and page border), the alignment
estimator returns a transform matrix and a warning list without raising;
in particular, when the layout declares no alignment markers and no page
border is detected, it returns the axis-aligned scale transform with
`scale_x = image_w/layout_w` and `scale_y = image_h/layout_h`.  A layout
with a zero dimension raises `ZeroDivisionError` in the proportional
fallback (see the counterexample). -/
theorem C7_never_fails (layout : LayoutGuide) (image_h image_w : ℕ)
    (cv : CVOracles) (hw : 0 < layout.width) (hh : 0 < layout.height) :
    (∃ m ws, build_layout_to_image_transform layout image_h image_w cv =
      some (m, ws)) ∧
    (layout.alignment_markers = [] → cv.detect_page_corners = none →
      build_layout_to_image_transform layout image_h image_w cv =
        some (scaleTransform ((image_w : ℚ) / layout.width)
            ((image_h : ℚ) / layout.height),
          ["Insufficient layout markers; using proportional mapping."])) := by
  constructor
  · unfold build_layout_to_image_transform
    rcases hmt : markerTier layout image_h image_w cv
        (layout.alignment_markers.take 4)
        (effectiveMarkers layout image_h image_w cv).1
        (effectiveMarkers layout image_h image_w cv).2 with ⟨om, w1⟩
    cases om with
    | some m => exact ⟨m, w1, rfl⟩
    | none =>
      cases hpc : cv.detect_page_corners with
      | some pc =>
        obtain ⟨m, wb, hbt⟩ :=
          borderTier_some layout image_h image_w cv pc hw.ne' hh.ne'
        dsimp only
        rw [hbt]
        exact ⟨m, w1 ++ wb, rfl⟩
      | none =>
        dsimp only
        rw [pydiv_of_ne _ hw.ne', pydiv_of_ne _ hh.ne']
        exact ⟨_, _, rfl⟩
  · intro hma hpc
    have hd0 : detectedMarkers0 layout cv = [] := by
      simp [detectedMarkers0, hma]
    have heff : effectiveMarkers layout image_h image_w cv = ([], false) := by
      simp [effectiveMarkers, hma, hd0]
    have hmt : markerTier layout image_h image_w cv
        (layout.alignment_markers.take 4)
        (effectiveMarkers layout image_h image_w cv).1
        (effectiveMarkers layout image_h image_w cv).2 = (none, []) := by
      rw [heff, hma]
      simp [markerTier]
    unfold build_layout_to_image_transform
    rw [hmt, hpc, pydiv_of_ne _ hw.ne', pydiv_of_ne _ hh.ne']
    rw [hma]
    simp

theorem C7_never_fails_witness :
    ((0 : ℚ) < 850 ∧ (0 : ℚ) < 1100) ∧
    ((∃ m ws, build_layout_to_image_transform ⟨850, 1100, [], [], [], 0⟩ 1100 850
        ⟨[], fun _ => [], none, fun _ _ => scaleTransform 0 0⟩ = some (m, ws)) ∧
    ((LayoutGuide.mk 850 1100 [] [] [] 0).alignment_markers = [] →
      (CVOracles.mk [] (fun _ => []) none (fun _ _ => scaleTransform 0 0)).detect_page_corners = none →
      build_layout_to_image_transform ⟨850, 1100, [], [], [], 0⟩ 1100 850
        ⟨[], fun _ => [], none, fun _ _ => scaleTransform 0 0⟩ =
        some (scaleTransform ((850 : ℚ) / (LayoutGuide.mk 850 1100 [] [] [] 0).width)
            ((1100 : ℚ) / (LayoutGuide.mk 850 1100 [] [] [] 0).height),
          ["Insufficient layout markers; using proportional mapping."]))) :=
  ⟨⟨by norm_num, by norm_num⟩,
    C7_never_fails ⟨850, 1100, [], [], [], 0⟩ 1100 850
      ⟨[], fun _ => [], none, fun _ _ => scaleTransform 0 0⟩
      (by norm_num) (by norm_num)⟩

end Edmcp
